import Mathlib

/-!
Verification development for the call-recovery resilience core:
error taxonomy (exceptions.py), circuit breaker (circuit_breaker.py),
retry executor (retry_manager.py) and the pipeline orchestrator
(call_agent.py), embedded shallowly.  Wall-clock time is passed as an
explicit parameter; an external service is modelled by the sequence of
outcomes its successive invocations produce.
-/

namespace CallRecovery

/-- The three states of `CircuitState` in circuit_breaker.py. -/
inductive CircuitState
  | CLOSED
  | OPEN
  | HALF_OPEN
deriving DecidableEq, Repr

/-- The string value carried by each member of the Python enum. -/
def CircuitState.value : CircuitState → String
  | .CLOSED => "CLOSED"
  | .OPEN => "OPEN"
  | .HALF_OPEN => "HALF_OPEN"

/-- The concrete exception classes of exceptions.py.  `transientError` and
`permanentError` are the two base classes, which classify_error also uses
directly for generic 5xx and unknown codes. -/
inductive ErrorClass
  | timeoutError
  | networkError
  | serviceUnavailableError
  | rateLimitError
  | transientError
  | authenticationError
  | invalidPayloadError
  | quotaExceededError
  | resourceNotFoundError
  | permanentError
deriving DecidableEq, Repr

/-- Membership in the TransientError branch of the exception hierarchy
(isinstance(e, TransientError)). -/
def ErrorClass.is_transient : ErrorClass → Bool
  | .timeoutError => true
  | .networkError => true
  | .serviceUnavailableError => true
  | .rateLimitError => true
  | .transientError => true
  | _ => false

/-- A Python exception as the resilience core sees it: either a classified
CallAgentError subclass carrying its message, or a plain Exception (the
circuit breaker raises one of these when it fails fast). -/
inductive PyError
  | classified (cls : ErrorClass) (message : String)
  | plainExc (message : String)
deriving DecidableEq, Repr

/-- Whether `except TransientError` catches this exception. -/
def PyError.matches_transient : PyError → Bool
  | .classified cls _ => cls.is_transient
  | .plainExc _ => false

/-- Whether `except PermanentError` catches this exception. -/
def PyError.matches_permanent : PyError → Bool
  | .classified cls _ => !cls.is_transient
  | .plainExc _ => false

/-- classify_error from exceptions.py: the class of the returned exception
instance together with its message. -/
def classify_error (status_code : Int) (error_message : String) : ErrorClass × String :=
  if status_code = 503 then
    (.serviceUnavailableError, "Service unavailable (503): " ++ error_message)
  else if status_code = 429 then
    (.rateLimitError, "Rate limit exceeded (429): " ++ error_message)
  else if status_code = 408 ∨ status_code = 504 then
    (.timeoutError, "Request timeout (" ++ toString status_code ++ "): " ++ error_message)
  else if status_code = 401 ∨ status_code = 403 then
    (.authenticationError, "Authentication failed (" ++ toString status_code ++ "): " ++ error_message)
  else if status_code = 404 then
    (.resourceNotFoundError, "Resource not found (404): " ++ error_message)
  else if status_code = 400 then
    (.invalidPayloadError, "Invalid request (400): " ++ error_message)
  else if 500 ≤ status_code ∧ status_code < 600 then
    (.transientError, "Server error (" ++ toString status_code ++ "): " ++ error_message)
  else
    (.permanentError, "Unknown error (" ++ toString status_code ++ "): " ++ error_message)

/-- The mutable record of a CircuitBreaker instance: its configuration
(failure_threshold, timeout, service_name) and its state tracking fields. -/
structure CircuitBreaker where
  failure_threshold : Nat
  timeout : Nat
  service_name : String
  state : CircuitState
  failure_count : Nat
  last_failure_time : Option Nat
  success_count : Nat
deriving DecidableEq, Repr

/-- CircuitBreaker.__init__: starts CLOSED with zero counts and no
recorded failure time. -/
def CircuitBreaker.init (failure_threshold timeout : Nat) (service_name : String) :
    CircuitBreaker :=
  ⟨failure_threshold, timeout, service_name, CircuitState.CLOSED, 0, none, 0⟩

/-- The _on_success handler: in HALF_OPEN close the circuit and zero both counters,
in CLOSED reset the failure count; unreachable in OPEN. -/
def CircuitBreaker.on_success (b : CircuitBreaker) : CircuitBreaker :=
  match b.state with
  | CircuitState.HALF_OPEN =>
      { b with state := CircuitState.CLOSED, failure_count := 0, success_count := 0 }
  | CircuitState.CLOSED => { b with failure_count := 0 }
  | CircuitState.OPEN => b

/-- The _on_failure handler: increment the failure count and record the failure time,
then in HALF_OPEN reopen, and in CLOSED open once the count reaches the
threshold. -/
def CircuitBreaker.on_failure (b : CircuitBreaker) (now : Nat) : CircuitBreaker :=
  let b1 := { b with failure_count := b.failure_count + 1, last_failure_time := some now }
  match b1.state with
  | CircuitState.HALF_OPEN => { b1 with state := CircuitState.OPEN }
  | CircuitState.CLOSED =>
      if b1.failure_count ≥ b1.failure_threshold then { b1 with state := CircuitState.OPEN }
      else b1
  | CircuitState.OPEN => b1

/-- The _should_attempt_reset check: true when a failure time is recorded and the
elapsed time since it reaches the timeout. -/
def CircuitBreaker.should_attempt_reset (b : CircuitBreaker) (now : Nat) : Bool :=
  match b.last_failure_time with
  | none => false
  | some t => decide ((b.timeout : Int) ≤ (now : Int) - (t : Int))

/-- The try block of CircuitBreaker.call: invoke the function (one
invocation), then run the success or failure handler and propagate the
outcome. -/
def CircuitBreaker.run_protected (b : CircuitBreaker) (now : Nat)
    (outcome : Except PyError α) : Except PyError α × CircuitBreaker × Nat :=
  match outcome with
  | Except.ok a => (Except.ok a, b.on_success, 1)
  | Except.error e => (Except.error e, b.on_failure now, 1)

/-- CircuitBreaker.call: when OPEN, either move to HALF_OPEN (if the reset
timeout elapsed) and proceed, or raise a plain breaker-open Exception
without invoking the function.  `outcome` is the result the wrapped
function produces if it is invoked; the final component counts its
invocations (0 or 1). -/
def CircuitBreaker.call (b : CircuitBreaker) (now : Nat) (outcome : Except PyError α) :
    Except PyError α × CircuitBreaker × Nat :=
  if b.state = CircuitState.OPEN then
    if b.should_attempt_reset now then
      CircuitBreaker.run_protected { b with state := CircuitState.HALF_OPEN } now outcome
    else
      (Except.error (PyError.plainExc
        (" [Circuit breaker] OPEN for " ++ b.service_name ++ " - failing fast")), b, 0)
  else
    CircuitBreaker.run_protected b now outcome

/-- The snapshot returned by get_state. -/
structure BreakerSnapshot where
  state : String
  failure_count : Nat
  service_name : String
deriving DecidableEq, Repr

/-- get_state: a read-only snapshot. -/
def CircuitBreaker.get_state (b : CircuitBreaker) : BreakerSnapshot :=
  ⟨b.state.value, b.failure_count, b.service_name⟩

/-- reset: force CLOSED, zero the failure count, clear the failure time. -/
def CircuitBreaker.reset (b : CircuitBreaker) : CircuitBreaker :=
  { b with state := CircuitState.CLOSED, failure_count := 0, last_failure_time := none }

/-- RetryManager configuration (initial_delay, backoff_multiplier,
max_attempts). -/
structure RetryManager where
  initial_delay : Nat
  backoff_multiplier : Nat
  max_attempts : Nat
deriving DecidableEq, Repr

/-- Trace of one execute_with_retry run: the value Python returns or the
exception it raises (`Except.ok none` models falling off the while loop
and returning None), the final state threaded through the retried
callable, the number of invocations of the callable, and the list of
sleeps performed, in order. -/
structure RunOut (σ : Type u) (α : Type v) where
  result : Except PyError (Option α)
  state : σ
  calls : Nat
  delays : List Nat
deriving Repr

/-- The while loop of execute_with_retry.  `f` is the retried callable,
threaded through state `σ`; `attempt` and `delay` are the loop variables.
`fuel` bounds the iteration count structurally; the loop guard
`attempt < max_attempts` is checked exactly as in the source, and the
loop is always entered with fuel `max_attempts`, which the guard never
outlives. -/
def RetryManager.loop (rm : RetryManager) (f : σ → Except PyError α × σ) :
    Nat → Nat → Nat → σ → RunOut σ α
  | 0, _, _, s => ⟨Except.ok none, s, 0, []⟩
  | fuel + 1, attempt, delay, s =>
    if attempt < rm.max_attempts then
      match f s with
      | (Except.ok a, s1) => ⟨Except.ok (some a), s1, 1, []⟩
      | (Except.error e, s1) =>
        if e.matches_transient then
          if attempt + 1 ≥ rm.max_attempts then
            ⟨Except.error e, s1, 1, []⟩
          else
            let rest := rm.loop f fuel (attempt + 1) (delay * rm.backoff_multiplier) s1
            ⟨rest.result, rest.state, rest.calls + 1, delay :: rest.delays⟩
        else if e.matches_permanent then
          ⟨Except.error e, s1, 1, []⟩
        else
          ⟨Except.error e, s1, 1, []⟩
    else ⟨Except.ok none, s, 0, []⟩

/-- execute_with_retry: run the loop from attempt 0 with the initial
delay. -/
def RetryManager.execute_with_retry (rm : RetryManager) (f : σ → Except PyError α × σ)
    (s : σ) : RunOut σ α :=
  rm.loop f rm.max_attempts 0 rm.initial_delay s

/-- Retry a bare external function, modelled by the outcome of each of its
successive invocations; the threaded state counts those invocations. -/
def retryService (rm : RetryManager) (svc : Nat → Except PyError α) : RunOut Nat α :=
  rm.execute_with_retry (fun n => (svc n, n + 1)) 0

/-- A record appended by ErrorLogger.log_error, restricted to the fields
the orchestrator passes (retry_count is left at its default by every call
site and timestamps are outside the model). -/
structure LogRecord where
  service_name : String
  error_type : String
  error_message : String
  circuit_state : String
deriving DecidableEq, Repr

/-- A record appended by AlertSystem.send_alert, restricted to the fields
the orchestrator passes. -/
structure AlertRecord where
  severity : String
  service_name : String
  error_message : String
deriving DecidableEq, Repr

/-- The callable the orchestrator hands to execute_with_retry: invoke the
external service through the circuit breaker.  The threaded state is the
breaker together with the count of actual service invocations; the
service is modelled by the outcome of each of its successive
invocations. -/
def stageStep (now : Nat) (svc : Nat → Except PyError α) :
    CircuitBreaker × Nat → Except PyError α × (CircuitBreaker × Nat) :=
  fun p =>
    match CircuitBreaker.call p.1 now (svc p.2) with
    | (r, b1, inv) => (r, (b1, p.2 + inv))

/-- Trace of one _call_*_service stage: the value returned or exception
raised, the breaker afterwards, how often the underlying service and the
retried callable were invoked, the sleeps performed, and the log and
alert sinks afterwards. -/
structure StageOut (α : Type u) where
  result : Except PyError (Option α)
  breaker : CircuitBreaker
  invocations : Nat
  calls : Nat
  delays : List Nat
  logs : List LogRecord
  alerts : List AlertRecord
deriving Repr

/-- The shared body of _call_stt_service / _call_llm_service /
_call_tts_service (the three methods are textual copies of each other up
to the service name and breaker): run the breaker-guarded call through
execute_with_retry; on a TransientError log it and alert at MEDIUM, on a
PermanentError log it and alert at HIGH, then re-raise; any other
exception propagates uncaught. -/
def call_service (rm : RetryManager) (name : String) (b : CircuitBreaker)
    (svc : Nat → Except PyError α) (now : Nat)
    (logs : List LogRecord) (alerts : List AlertRecord) : StageOut α :=
  let out := rm.execute_with_retry (stageStep now svc) (b, 0)
  match out.result with
  | Except.ok v => ⟨Except.ok v, out.state.1, out.state.2, out.calls, out.delays, logs, alerts⟩
  | Except.error e =>
    match e with
    | PyError.classified cls m =>
      if cls.is_transient then
        ⟨Except.error e, out.state.1, out.state.2, out.calls, out.delays,
         logs ++ [⟨name, "TransientError", m, (out.state.1.get_state).state⟩],
         alerts ++ [⟨"MEDIUM", name, "Transient error: " ++ m⟩]⟩
      else
        ⟨Except.error e, out.state.1, out.state.2, out.calls, out.delays,
         logs ++ [⟨name, "PermanentError", m, (out.state.1.get_state).state⟩],
         alerts ++ [⟨"HIGH", name, "Permanent error: " ++ m⟩]⟩
    | PyError.plainExc _ =>
      ⟨Except.error e, out.state.1, out.state.2, out.calls, out.delays, logs, alerts⟩

/-- The RetryManager CallAgent.__init__ constructs. -/
def agent_retry_manager : RetryManager :=
  ⟨5, 2, 3⟩

/-- Trace of one process_call invocation: the outcome reaching the
top-level except handler (`Except.ok` models the success path, whose
payload is the TTS stage return value), which stage aborted (none on
success), the three breakers afterwards, the per-stage service invocation
counts, and the log and alert sinks afterwards. -/
structure PipelineOut where
  result : Except PyError (Option String)
  aborted_stage : Option String
  sttB : CircuitBreaker
  llmB : CircuitBreaker
  ttsB : CircuitBreaker
  sttInv : Nat
  llmInv : Nat
  ttsInv : Nat
  logs : List LogRecord
  alerts : List AlertRecord
deriving Repr

/-- The value process_call returns to its caller: the final audio on the
success path, and Python None (from the bare except handler) on any
failure. -/
def PipelineOut.py_return (o : PipelineOut) : Option String :=
  match o.result with
  | Except.ok v => v
  | Except.error _ => none

/-- CallAgent.process_call: run STT, then LLM, then TTS, each through
call_service; the first exception aborts the remaining stages and is
caught by the bare except handler (which returns None). -/
def process_call (now : Nat)
    (sttSvc llmSvc ttsSvc : Nat → Except PyError String)
    (sttB llmB ttsB : CircuitBreaker)
    (logs0 : List LogRecord) (alerts0 : List AlertRecord) : PipelineOut :=
  let s1 := call_service agent_retry_manager "STT" sttB sttSvc now logs0 alerts0
  match s1.result with
  | Except.error e =>
    ⟨Except.error e, some "STT", s1.breaker, llmB, ttsB,
     s1.invocations, 0, 0, s1.logs, s1.alerts⟩
  | Except.ok _text =>
    let s2 := call_service agent_retry_manager "LLM" llmB llmSvc now s1.logs s1.alerts
    match s2.result with
    | Except.error e =>
      ⟨Except.error e, some "LLM", s1.breaker, s2.breaker, ttsB,
       s1.invocations, s2.invocations, 0, s2.logs, s2.alerts⟩
    | Except.ok _resp =>
      let s3 := call_service agent_retry_manager "TTS" ttsB ttsSvc now s2.logs s2.alerts
      match s3.result with
      | Except.error e =>
        ⟨Except.error e, some "TTS", s1.breaker, s2.breaker, s3.breaker,
         s1.invocations, s2.invocations, s3.invocations, s3.logs, s3.alerts⟩
      | Except.ok audio =>
        ⟨Except.ok audio, none, s1.breaker, s2.breaker, s3.breaker,
         s1.invocations, s2.invocations, s3.invocations, s3.logs, s3.alerts⟩

/-- Iterate failing calls through the breaker: each event is the time of
the call paired with the exception the wrapped function raises there. -/
def applyFailingCalls (b : CircuitBreaker) : List (Nat × PyError) → CircuitBreaker
  | [] => b
  | (t, e) :: rest =>
    applyFailingCalls (CircuitBreaker.call (α := Unit) b t (Except.error e)).2.1 rest

/-- The classifier as the spec states it, written from the spec mapping
table alone, for comparison with classify_error: 503 to
ServiceUnavailable, 429 to RateLimited, 408 and 504 to Timeout, 401 and
403 to AuthenticationFailed, 404 to NotFound, 400 to InvalidPayload, any
other code in [500, 600) to the generic Transient kind, every remaining
code to the generic Permanent kind. -/
def spec_classify (statusCode : Int) : ErrorClass :=
  if statusCode = 503 then ErrorClass.serviceUnavailableError
  else if statusCode = 429 then ErrorClass.rateLimitError
  else if statusCode = 408 ∨ statusCode = 504 then ErrorClass.timeoutError
  else if statusCode = 401 ∨ statusCode = 403 then ErrorClass.authenticationError
  else if statusCode = 404 then ErrorClass.resourceNotFoundError
  else if statusCode = 400 then ErrorClass.invalidPayloadError
  else if 500 ≤ statusCode ∧ statusCode < 600 then ErrorClass.transientError
  else ErrorClass.permanentError

lemma should_attempt_reset_false (b : CircuitBreaker) (now t : Nat)
    (ht : b.last_failure_time = some t)
    (hlt : (now : Int) - (t : Int) < (b.timeout : Int)) :
    b.should_attempt_reset now = false := by
  unfold CircuitBreaker.should_attempt_reset
  rw [ht]
  simp only [decide_eq_false_iff_not, not_le]
  omega

lemma should_attempt_reset_true (b : CircuitBreaker) (now t : Nat)
    (ht : b.last_failure_time = some t)
    (hge : (b.timeout : Int) ≤ (now : Int) - (t : Int)) :
    b.should_attempt_reset now = true := by
  unfold CircuitBreaker.should_attempt_reset
  rw [ht]
  simpa using hge

lemma call_open_rejects (b : CircuitBreaker) (now t : Nat) (o : Except PyError α)
    (hs : b.state = CircuitState.OPEN) (ht : b.last_failure_time = some t)
    (hlt : (now : Int) - (t : Int) < (b.timeout : Int)) :
    b.call now o = (Except.error (PyError.plainExc
      (" [Circuit breaker] OPEN for " ++ b.service_name ++ " - failing fast")), b, 0) := by
  unfold CircuitBreaker.call
  rw [hs, should_attempt_reset_false b now t ht hlt]
  simp

lemma call_open_resets (b : CircuitBreaker) (now t : Nat) (o : Except PyError α)
    (hs : b.state = CircuitState.OPEN) (ht : b.last_failure_time = some t)
    (hge : (b.timeout : Int) ≤ (now : Int) - (t : Int)) :
    b.call now o
      = CircuitBreaker.run_protected { b with state := CircuitState.HALF_OPEN } now o := by
  unfold CircuitBreaker.call
  rw [hs, should_attempt_reset_true b now t ht hge]
  simp

lemma call_not_open (b : CircuitBreaker) (now : Nat) (o : Except PyError α)
    (hs : b.state ≠ CircuitState.OPEN) :
    b.call now o = b.run_protected now o := by
  unfold CircuitBreaker.call
  simp [hs]

lemma on_failure_closed_stays (b : CircuitBreaker) (now : Nat)
    (hs : b.state = CircuitState.CLOSED)
    (hlt : b.failure_count + 1 < b.failure_threshold) :
    b.on_failure now
      = { b with failure_count := b.failure_count + 1, last_failure_time := some now } := by
  unfold CircuitBreaker.on_failure
  rw [hs]
  simp only
  rw [if_neg (by omega)]

lemma on_failure_closed_trips (b : CircuitBreaker) (now : Nat)
    (hs : b.state = CircuitState.CLOSED)
    (hge : b.failure_threshold ≤ b.failure_count + 1) :
    b.on_failure now
      = { b with
          state := CircuitState.OPEN
          failure_count := b.failure_count + 1
          last_failure_time := some now } := by
  unfold CircuitBreaker.on_failure
  rw [hs]
  simp only
  rw [if_pos (by omega)]

lemma applyFailingCalls_stays_closed (events : List (Nat × PyError)) :
    ∀ b : CircuitBreaker, b.state = CircuitState.CLOSED →
      b.failure_count + events.length < b.failure_threshold →
      (applyFailingCalls b events).state = CircuitState.CLOSED ∧
      (applyFailingCalls b events).failure_count = b.failure_count + events.length ∧
      (applyFailingCalls b events).failure_threshold = b.failure_threshold := by
  induction events with
  | nil =>
    intro b hs _
    exact ⟨hs, by simp [applyFailingCalls], rfl⟩
  | cons te rest ih =>
    intro b hs hlt
    obtain ⟨t, e⟩ := te
    have hne : b.state ≠ CircuitState.OPEN := by rw [hs]; simp
    have hstep : applyFailingCalls b ((t, e) :: rest)
        = applyFailingCalls (b.on_failure t) rest := by
      simp [applyFailingCalls, call_not_open b t (Except.error e) hne,
        CircuitBreaker.run_protected]
    have hcount : b.failure_count + 1 < b.failure_threshold := by
      have := rest.length
      simp only [List.length_cons] at hlt
      omega
    rw [hstep, on_failure_closed_stays b t hs hcount]
    have hmain := ih { b with failure_count := b.failure_count + 1, last_failure_time := some t }
      hs (by simp only [List.length_cons] at hlt ⊢; omega)
    simp only at hmain
    simp only [List.length_cons]
    exact ⟨hmain.1, by rw [hmain.2.1]; omega, hmain.2.2⟩

lemma applyFailingCalls_snoc (es : List (Nat × PyError)) (t : Nat) (e : PyError) :
    ∀ b : CircuitBreaker, applyFailingCalls b (es ++ [(t, e)])
      = (CircuitBreaker.call (α := Unit) (applyFailingCalls b es) t (Except.error e)).2.1 := by
  induction es with
  | nil => intro b; simp [applyFailingCalls]
  | cons te rest ih =>
    intro b
    obtain ⟨t1, e1⟩ := te
    simp only [List.cons_append, applyFailingCalls]
    exact ih _

lemma loop_calls_le (rm : RetryManager) (f : σ → Except PyError α × σ) :
    ∀ (fuel attempt delay : Nat) (s : σ),
      (rm.loop f fuel attempt delay s).calls ≤ rm.max_attempts - attempt := by
  intro fuel
  induction fuel with
  | zero => intro attempt delay s; simp [RetryManager.loop]
  | succ n ih =>
    intro attempt delay s
    by_cases hlt : attempt < rm.max_attempts
    · rcases hfs : f s with ⟨r, s1⟩
      rcases r with e | a
      · by_cases htr : e.matches_transient
        · by_cases hex : attempt + 1 ≥ rm.max_attempts
          · simp [RetryManager.loop, hlt, hfs, htr, hex]
            omega
          · have hrec := ih (attempt + 1) (delay * rm.backoff_multiplier) s1
            simp [RetryManager.loop, hlt, hfs, htr, hex]
            omega
        · by_cases hpm : e.matches_permanent <;>
            · simp [RetryManager.loop, hlt, hfs, htr, hpm]
              omega
      · simp [RetryManager.loop, hlt, hfs]
        omega
    · simp [RetryManager.loop, hlt]

lemma loop_delays_le (rm : RetryManager) (f : σ → Except PyError α × σ) :
    ∀ (fuel attempt delay : Nat) (s : σ),
      (rm.loop f fuel attempt delay s).delays.length ≤ rm.max_attempts - attempt - 1 := by
  intro fuel
  induction fuel with
  | zero => intro attempt delay s; simp [RetryManager.loop]
  | succ n ih =>
    intro attempt delay s
    by_cases hlt : attempt < rm.max_attempts
    · rcases hfs : f s with ⟨r, s1⟩
      rcases r with e | a
      · by_cases htr : e.matches_transient
        · by_cases hex : attempt + 1 ≥ rm.max_attempts
          · simp [RetryManager.loop, hlt, hfs, htr, hex]
          · have hrec := ih (attempt + 1) (delay * rm.backoff_multiplier) s1
            simp [RetryManager.loop, hlt, hfs, htr, hex]
            omega
        · by_cases hpm : e.matches_permanent <;>
            simp [RetryManager.loop, hlt, hfs, htr, hpm]
      · simp [RetryManager.loop, hlt, hfs]
    · simp [RetryManager.loop, hlt]

lemma call_service_emits (rm : RetryManager) (name : String) (b : CircuitBreaker)
    (svc : Nat → Except PyError α) (now : Nat)
    (ls : List LogRecord) (al : List AlertRecord) :
    (∀ cls m, (call_service rm name b svc now ls al).result
        = Except.error (PyError.classified cls m) →
      (∃ r, (call_service rm name b svc now ls al).logs = ls ++ [r]) ∧
      (∃ a, (call_service rm name b svc now ls al).alerts = al ++ [a] ∧
        a.severity = if cls.is_transient then "MEDIUM" else "HIGH")) ∧
    (∀ m, (call_service rm name b svc now ls al).result
        = Except.error (PyError.plainExc m) →
      (call_service rm name b svc now ls al).logs = ls ∧
      (call_service rm name b svc now ls al).alerts = al) ∧
    (∀ v, (call_service rm name b svc now ls al).result = Except.ok v →
      (call_service rm name b svc now ls al).logs = ls ∧
      (call_service rm name b svc now ls al).alerts = al) := by
  unfold call_service
  rcases hres : (rm.execute_with_retry (stageStep now svc) (b, 0)).result with e1 | v1
  · rcases e1 with ⟨cls1, m1⟩ | m1
    · by_cases htr : cls1.is_transient
      · simp only [hres, htr, if_true]
        refine ⟨?_, ?_, ?_⟩
        · intro cls m hcm
          simp only [Except.error.injEq, PyError.classified.injEq] at hcm
          obtain ⟨hc, hm⟩ := hcm
          subst hc; subst hm
          exact ⟨⟨_, rfl⟩, ⟨_, rfl, by simp [htr]⟩⟩
        · intro m hcm; simp at hcm
        · intro v hcm; simp at hcm
      · have htr1 : cls1.is_transient = false := by
          simpa using htr
        simp only [hres, htr1, Bool.false_eq_true, if_false]
        refine ⟨?_, ?_, ?_⟩
        · intro cls m hcm
          simp only [Except.error.injEq, PyError.classified.injEq] at hcm
          obtain ⟨hc, hm⟩ := hcm
          subst hc; subst hm
          exact ⟨⟨_, rfl⟩, ⟨_, rfl, by simp [htr1]⟩⟩
        · intro m hcm; simp at hcm
        · intro v hcm; simp at hcm
    · simp only [hres]
      refine ⟨?_, ?_, ?_⟩
      · intro cls m hcm; simp at hcm
      · intro m hcm; exact ⟨by trivial, by trivial⟩
      · intro v hcm; simp at hcm
  · simp only [hres]
    refine ⟨?_, ?_, ?_⟩
    · intro cls m hcm; simp at hcm
    · intro m hcm; simp at hcm
    · intro v hcm; exact ⟨by trivial, by trivial⟩

/-- C1: a breaker configured with failure threshold T at least 1 that
starts CLOSED becomes OPEN exactly on the T-th consecutive failing call
(the call whose time is t here), recording t as the failure timestamp,
while after every shorter run of failing calls it is still CLOSED. -/
theorem claim_C1 (T timeout : Nat) (name : String) (es : List (Nat × PyError))
    (t : Nat) (e : PyError) (hT : 1 ≤ T) (hlen : es.length + 1 = T) :
    (applyFailingCalls (CircuitBreaker.init T timeout name) (es ++ [(t, e)])).state
        = CircuitState.OPEN ∧
    (applyFailingCalls (CircuitBreaker.init T timeout name) (es ++ [(t, e)])).last_failure_time
        = some t ∧
    ∀ k, k < T →
      (applyFailingCalls (CircuitBreaker.init T timeout name) ((es ++ [(t, e)]).take k)).state
        = CircuitState.CLOSED := by
  obtain ⟨hclosed, hcount, hth⟩ :=
    applyFailingCalls_stays_closed es (CircuitBreaker.init T timeout name) rfl
      (by simp only [CircuitBreaker.init]; omega)
  have hne : (applyFailingCalls (CircuitBreaker.init T timeout name) es).state
      ≠ CircuitState.OPEN := by rw [hclosed]; simp
  have htrip := on_failure_closed_trips
    (applyFailingCalls (CircuitBreaker.init T timeout name) es) t hclosed
    (by rw [hth, hcount]; simp only [CircuitBreaker.init]; omega)
  refine ⟨?_, ?_, ?_⟩
  · rw [applyFailingCalls_snoc, call_not_open _ t (Except.error e) hne]
    simp only [CircuitBreaker.run_protected]
    rw [htrip]
  · rw [applyFailingCalls_snoc, call_not_open _ t (Except.error e) hne]
    simp only [CircuitBreaker.run_protected]
    rw [htrip]
  · intro k hk
    have hklen : ((es ++ [(t, e)]).take k).length = k := by
      simp only [List.length_take, List.length_append, List.length_singleton]
      omega
    exact (applyFailingCalls_stays_closed ((es ++ [(t, e)]).take k)
      (CircuitBreaker.init T timeout name) rfl
      (by rw [hklen]; simp only [CircuitBreaker.init]; omega)).1

/-- C1 witness: threshold 2, two failing calls trip the breaker at the
time of the second call, and one failing call leaves it CLOSED. -/
theorem claim_C1_witness :
    (applyFailingCalls (CircuitBreaker.init 2 60 "S")
        ([(1, PyError.classified ErrorClass.permanentError "x")]
          ++ [(2, PyError.classified ErrorClass.networkError "y")])).state
        = CircuitState.OPEN ∧
    (applyFailingCalls (CircuitBreaker.init 2 60 "S")
        ([(1, PyError.classified ErrorClass.permanentError "x")]
          ++ [(2, PyError.classified ErrorClass.networkError "y")])).last_failure_time
        = some 2 ∧
    ∀ k, k < 2 →
      (applyFailingCalls (CircuitBreaker.init 2 60 "S")
        (([(1, PyError.classified ErrorClass.permanentError "x")]
          ++ [(2, PyError.classified ErrorClass.networkError "y")]).take k)).state
        = CircuitState.CLOSED :=
  claim_C1 2 60 "S" [(1, PyError.classified ErrorClass.permanentError "x")]
    2 (PyError.classified ErrorClass.networkError "y") (by decide) (by decide)

/-- C2: while OPEN with the elapsed time since the recorded failure
strictly below the reset timeout, every call raises the breaker-open
error and the wrapped function is never invoked. -/
theorem claim_C2 {α : Type} (b : CircuitBreaker) (now t : Nat)
    (outcome : Except PyError α)
    (hs : b.state = CircuitState.OPEN) (ht : b.last_failure_time = some t)
    (hlt : (now : Int) - (t : Int) < (b.timeout : Int)) :
    (b.call now outcome).1 = Except.error (PyError.plainExc
      (" [Circuit breaker] OPEN for " ++ b.service_name ++ " - failing fast")) ∧
    (b.call now outcome).2.2 = 0 := by
  rw [call_open_rejects b now t outcome hs ht hlt]
  exact ⟨rfl, rfl⟩

/-- C2 witness: a concrete OPEN breaker 10 time units past a failure with
timeout 60 rejects a call that would have succeeded. -/
theorem claim_C2_witness :
    ((⟨3, 60, "S", CircuitState.OPEN, 3, some 0, 0⟩ : CircuitBreaker).call 10
        (Except.ok "v")).1 = Except.error (PyError.plainExc
      (" [Circuit breaker] OPEN for "
        ++ (⟨3, 60, "S", CircuitState.OPEN, 3, some 0, 0⟩ : CircuitBreaker).service_name
        ++ " - failing fast")) ∧
    ((⟨3, 60, "S", CircuitState.OPEN, 3, some 0, 0⟩ : CircuitBreaker).call 10
        (Except.ok "v")).2.2 = 0 :=
  claim_C2 _ 10 0 _ rfl rfl (by decide)

/-- C3: once the elapsed time since the recorded failure reaches the
reset timeout, the next call moves the OPEN breaker to HALF_OPEN and
invokes the wrapped function exactly once; success closes the breaker
with failure count 0, failure reopens it with the failure timestamp
refreshed to the time of that call. -/
theorem claim_C3 {α : Type} (b : CircuitBreaker) (now t : Nat)
    (outcome : Except PyError α)
    (hs : b.state = CircuitState.OPEN) (ht : b.last_failure_time = some t)
    (hge : (b.timeout : Int) ≤ (now : Int) - (t : Int)) :
    b.call now outcome
      = CircuitBreaker.run_protected { b with state := CircuitState.HALF_OPEN } now outcome ∧
    (b.call now outcome).2.2 = 1 ∧
    (∀ a, outcome = Except.ok a →
      (b.call now outcome).1 = Except.ok a ∧
      (b.call now outcome).2.1.state = CircuitState.CLOSED ∧
      (b.call now outcome).2.1.failure_count = 0) ∧
    (∀ err, outcome = Except.error err →
      (b.call now outcome).1 = Except.error err ∧
      (b.call now outcome).2.1.state = CircuitState.OPEN ∧
      (b.call now outcome).2.1.last_failure_time = some now) := by
  have hc := call_open_resets b now t outcome hs ht hge
  refine ⟨hc, ?_, ?_, ?_⟩
  · rw [hc]; cases outcome <;> rfl
  · intro a ha; subst ha; rw [hc]; exact ⟨rfl, rfl, rfl⟩
  · intro err herr; subst herr; rw [hc]; exact ⟨rfl, rfl, rfl⟩

/-- C3 witness: a concrete OPEN breaker 60 time units past a failure with
timeout 60 probes; instantiated with a failing probe, which reopens the
breaker with the timestamp refreshed. -/
theorem claim_C3_witness :
    ((⟨3, 60, "S", CircuitState.OPEN, 3, some 0, 0⟩ : CircuitBreaker).call 60
        (Except.error (PyError.classified ErrorClass.timeoutError "late") : Except PyError String))
      = CircuitBreaker.run_protected
        { (⟨3, 60, "S", CircuitState.OPEN, 3, some 0, 0⟩ : CircuitBreaker) with
          state := CircuitState.HALF_OPEN } 60
        (Except.error (PyError.classified ErrorClass.timeoutError "late")) ∧
    ((⟨3, 60, "S", CircuitState.OPEN, 3, some 0, 0⟩ : CircuitBreaker).call 60
        (Except.error (PyError.classified ErrorClass.timeoutError "late") : Except PyError String)).2.2
      = 1 ∧
    (∀ a, (Except.error (PyError.classified ErrorClass.timeoutError "late") : Except PyError String)
        = Except.ok a →
      ((⟨3, 60, "S", CircuitState.OPEN, 3, some 0, 0⟩ : CircuitBreaker).call 60
        (Except.error (PyError.classified ErrorClass.timeoutError "late") : Except PyError String)).1
        = Except.ok a ∧
      ((⟨3, 60, "S", CircuitState.OPEN, 3, some 0, 0⟩ : CircuitBreaker).call 60
        (Except.error (PyError.classified ErrorClass.timeoutError "late") : Except PyError String)).2.1.state
        = CircuitState.CLOSED ∧
      ((⟨3, 60, "S", CircuitState.OPEN, 3, some 0, 0⟩ : CircuitBreaker).call 60
        (Except.error (PyError.classified ErrorClass.timeoutError "late") : Except PyError String)).2.1.failure_count
        = 0) ∧
    (∀ err, (Except.error (PyError.classified ErrorClass.timeoutError "late") : Except PyError String)
        = Except.error err →
      ((⟨3, 60, "S", CircuitState.OPEN, 3, some 0, 0⟩ : CircuitBreaker).call 60
        (Except.error (PyError.classified ErrorClass.timeoutError "late") : Except PyError String)).1
        = Except.error err ∧
      ((⟨3, 60, "S", CircuitState.OPEN, 3, some 0, 0⟩ : CircuitBreaker).call 60
        (Except.error (PyError.classified ErrorClass.timeoutError "late") : Except PyError String)).2.1.state
        = CircuitState.OPEN ∧
      ((⟨3, 60, "S", CircuitState.OPEN, 3, some 0, 0⟩ : CircuitBreaker).call 60
        (Except.error (PyError.classified ErrorClass.timeoutError "late") : Except PyError String)).2.1.last_failure_time
        = some 60) :=
  claim_C3 _ 60 0 _ rfl rfl (by decide)

/-- C9: a call rejected while OPEN before the reset timeout elapses
leaves the breaker record completely unchanged: same state, same failure
count, same failure timestamp. -/
theorem claim_C9 {α : Type} (b : CircuitBreaker) (now t : Nat)
    (outcome : Except PyError α)
    (hs : b.state = CircuitState.OPEN) (ht : b.last_failure_time = some t)
    (hlt : (now : Int) - (t : Int) < (b.timeout : Int)) :
    (b.call now outcome).2.1 = b := by
  rw [call_open_rejects b now t outcome hs ht hlt]

/-- C9 witness: the rejected call at a concrete OPEN breaker returns the
breaker record unchanged. -/
theorem claim_C9_witness :
    ((⟨3, 60, "S", CircuitState.OPEN, 3, some 0, 0⟩ : CircuitBreaker).call 10
        (Except.error (PyError.classified ErrorClass.networkError "n") : Except PyError String)).2.1
      = (⟨3, 60, "S", CircuitState.OPEN, 3, some 0, 0⟩ : CircuitBreaker) :=
  claim_C9 _ 10 0 _ rfl rfl (by decide)

/-- C4: with the policy (initial delay 5, multiplier 2, max attempts 3),
a function failing transiently on every invocation is invoked exactly 3
times, sleeping 5 then 10 time units between attempts 1 and 2 and between
attempts 2 and 3, with no sleep after the third; the propagated failure
is the one the third invocation raised.  In general, for any policy, at
most max_attempts invocations occur and at most max_attempts - 1 sleeps
are incurred. -/
theorem claim_C4 :
    (∀ svc : Nat → Except PyError String,
      (∀ n, ∃ e, svc n = Except.error e ∧ e.matches_transient = true) →
      (retryService ⟨5, 2, 3⟩ svc).calls = 3 ∧
      (retryService ⟨5, 2, 3⟩ svc).delays = [5, 10] ∧
      ∃ e, svc 2 = Except.error e ∧ (retryService ⟨5, 2, 3⟩ svc).result = Except.error e) ∧
    (∀ (rm : RetryManager) (svc : Nat → Except PyError String),
      (retryService rm svc).calls ≤ rm.max_attempts ∧
      (retryService rm svc).delays.length ≤ rm.max_attempts - 1) := by
  constructor
  · intro svc h
    obtain ⟨e0, h0, m0⟩ := h 0
    obtain ⟨e1, h1, m1⟩ := h 1
    obtain ⟨e2, h2, m2⟩ := h 2
    refine ⟨?_, ?_, e2, h2, ?_⟩ <;>
      simp [retryService, RetryManager.execute_with_retry, RetryManager.loop,
        h0, h1, h2, m0, m1, m2]
  · intro rm svc
    have hc := loop_calls_le rm (fun n => (svc n, n + 1)) rm.max_attempts 0 rm.initial_delay 0
    have hd := loop_delays_le rm (fun n => (svc n, n + 1)) rm.max_attempts 0 rm.initial_delay 0
    unfold retryService RetryManager.execute_with_retry
    exact ⟨by omega, by omega⟩

/-- C4 witness: the always-transiently-failing service at the concrete
policy, and the general bound at that same policy. -/
theorem claim_C4_witness :
    ((retryService (α := String) ⟨5, 2, 3⟩
        (fun _ => Except.error (PyError.classified ErrorClass.transientError "boom"))).calls
        = 3 ∧
      (retryService (α := String) ⟨5, 2, 3⟩
        (fun _ => Except.error (PyError.classified ErrorClass.transientError "boom"))).delays
        = [5, 10] ∧
      ∃ e, (fun _ => Except.error (PyError.classified ErrorClass.transientError "boom") :
            Nat → Except PyError String) 2 = Except.error e ∧
        (retryService (α := String) ⟨5, 2, 3⟩
          (fun _ => Except.error (PyError.classified ErrorClass.transientError "boom"))).result
          = Except.error e) ∧
    ((retryService (α := String) ⟨5, 2, 3⟩
        (fun _ => Except.error (PyError.classified ErrorClass.transientError "boom"))).calls
        ≤ (⟨5, 2, 3⟩ : RetryManager).max_attempts ∧
      (retryService (α := String) ⟨5, 2, 3⟩
        (fun _ => Except.error (PyError.classified ErrorClass.transientError "boom"))).delays.length
        ≤ (⟨5, 2, 3⟩ : RetryManager).max_attempts - 1) :=
  ⟨claim_C4.1 _ (fun _ => ⟨_, rfl, rfl⟩), claim_C4.2 ⟨5, 2, 3⟩ _⟩

/-- C5: a first-attempt failure that is not a TransientError (a
PermanentError, or any unrecognized exception such as the breaker-open
one) is propagated immediately: one invocation, no sleep, regardless of
the attempt budget of the policy (which admits at least one attempt). -/
theorem claim_C5 (rm : RetryManager) (svc : Nat → Except PyError String) (e : PyError)
    (hmax : 1 ≤ rm.max_attempts) (h0 : svc 0 = Except.error e)
    (he : e.matches_transient = false) :
    (retryService rm svc).result = Except.error e ∧
    (retryService rm svc).calls = 1 ∧
    (retryService rm svc).delays = [] := by
  obtain ⟨k, hk⟩ : ∃ k, rm.max_attempts = k + 1 := ⟨rm.max_attempts - 1, by omega⟩
  have hpos : 0 < rm.max_attempts := hmax
  unfold retryService RetryManager.execute_with_retry
  rw [hk]
  simp [RetryManager.loop, h0, he, hpos]

/-- C5 witness: a service whose first invocation raises a QuotaExceeded
(permanent) error under a policy with a 7-attempt budget. -/
theorem claim_C5_witness :
    (retryService (α := String) ⟨5, 2, 7⟩
        (fun _ => Except.error (PyError.classified ErrorClass.quotaExceededError "q"))).result
      = Except.error (PyError.classified ErrorClass.quotaExceededError "q") ∧
    (retryService (α := String) ⟨5, 2, 7⟩
        (fun _ => Except.error (PyError.classified ErrorClass.quotaExceededError "q"))).calls
      = 1 ∧
    (retryService (α := String) ⟨5, 2, 7⟩
        (fun _ => Except.error (PyError.classified ErrorClass.quotaExceededError "q"))).delays
      = [] :=
  claim_C5 ⟨5, 2, 7⟩ _ (PyError.classified ErrorClass.quotaExceededError "q")
    (by decide) rfl rfl

/-- C6: classify_error realizes exactly the classification table the spec
states, as a total pure function of the integer status code: 503 to
ServiceUnavailable, 429 to RateLimited, 408 and 504 to Timeout, 401 and
403 to AuthenticationFailed, 404 to NotFound, 400 to InvalidPayload, any
other code in [500, 600) to the generic Transient kind, and every
remaining code to the generic Permanent kind. -/
theorem claim_C6 : ∀ (statusCode : Int) (message : String),
    (classify_error statusCode message).1 = spec_classify statusCode := by
  intro c m
  unfold classify_error spec_classify
  split_ifs <;> rfl

/-- C7 counterexample: a pipeline invocation that terminates with a
breaker-open rejection (the STT breaker is OPEN, 10 time units into a
60-unit reset timeout) emits zero log records and zero alert records,
contradicting the claim that every terminal stage failure of any kind
produces exactly one of each. -/
theorem claim_C7_counterexample :
    (∃ e, (process_call 10 (fun _ => Except.ok "t") (fun _ => Except.ok "r")
      (fun _ => Except.ok "a")
      ⟨3, 60, "STT", CircuitState.OPEN, 3, some 0, 0⟩
      (CircuitBreaker.init 3 60 "LLM") (CircuitBreaker.init 3 60 "TTS") [] []).result
        = Except.error e) ∧
    (process_call 10 (fun _ => Except.ok "t") (fun _ => Except.ok "r")
      (fun _ => Except.ok "a")
      ⟨3, 60, "STT", CircuitState.OPEN, 3, some 0, 0⟩
      (CircuitBreaker.init 3 60 "LLM") (CircuitBreaker.init 3 60 "TTS") [] []).logs = [] ∧
    (process_call 10 (fun _ => Except.ok "t") (fun _ => Except.ok "r")
      (fun _ => Except.ok "a")
      ⟨3, 60, "STT", CircuitState.OPEN, 3, some 0, 0⟩
      (CircuitBreaker.init 3 60 "LLM") (CircuitBreaker.init 3 60 "TTS") [] []).alerts = [] :=
  ⟨⟨PyError.plainExc (" [Circuit breaker] OPEN for " ++ "STT" ++ " - failing fast"),
    rfl⟩, rfl, rfl⟩

/-- C7 amended: a pipeline invocation whose terminal failure is a
classified (Transient or Permanent) error emits exactly one log record
and exactly one alert record before returning, the alert at severity
MEDIUM for a Transient failure and HIGH for a Permanent one; a terminal
breaker-open rejection (a plain unclassified exception) emits no log
record and no alert record. -/
theorem claim_C7_amended (now : Nat) (sttSvc llmSvc ttsSvc : Nat → Except PyError String)
    (sttB llmB ttsB : CircuitBreaker)
    (logs0 : List LogRecord) (alerts0 : List AlertRecord) :
    (∀ cls m,
      (process_call now sttSvc llmSvc ttsSvc sttB llmB ttsB logs0 alerts0).result
          = Except.error (PyError.classified cls m) →
      (∃ r, (process_call now sttSvc llmSvc ttsSvc sttB llmB ttsB logs0 alerts0).logs
          = logs0 ++ [r]) ∧
      (∃ a, (process_call now sttSvc llmSvc ttsSvc sttB llmB ttsB logs0 alerts0).alerts
          = alerts0 ++ [a] ∧
        a.severity = if cls.is_transient then "MEDIUM" else "HIGH")) ∧
    (∀ m,
      (process_call now sttSvc llmSvc ttsSvc sttB llmB ttsB logs0 alerts0).result
          = Except.error (PyError.plainExc m) →
      (process_call now sttSvc llmSvc ttsSvc sttB llmB ttsB logs0 alerts0).logs = logs0 ∧
      (process_call now sttSvc llmSvc ttsSvc sttB llmB ttsB logs0 alerts0).alerts = alerts0) := by
  obtain ⟨hT1, hP1, hO1⟩ :=
    call_service_emits agent_retry_manager "STT" sttB sttSvc now logs0 alerts0
  unfold process_call
  rcases h1 : (call_service agent_retry_manager "STT" sttB sttSvc now logs0 alerts0).result
    with e1 | v1
  · simp only [h1]
    constructor
    · intro cls m hcm
      simp only [Except.error.injEq] at hcm
      subst hcm
      exact hT1 cls m h1
    · intro m hcm
      simp only [Except.error.injEq] at hcm
      subst hcm
      exact hP1 m h1
  · obtain ⟨hl1, ha1⟩ := hO1 v1 h1
    obtain ⟨hT2, hP2, hO2⟩ := call_service_emits agent_retry_manager "LLM" llmB llmSvc now
      (call_service agent_retry_manager "STT" sttB sttSvc now logs0 alerts0).logs
      (call_service agent_retry_manager "STT" sttB sttSvc now logs0 alerts0).alerts
    simp only [h1]
    rcases h2 : (call_service agent_retry_manager "LLM" llmB llmSvc now
        (call_service agent_retry_manager "STT" sttB sttSvc now logs0 alerts0).logs
        (call_service agent_retry_manager "STT" sttB sttSvc now logs0 alerts0).alerts).result
      with e2 | v2
    · simp only [h2]
      constructor
      · intro cls m hcm
        simp only [Except.error.injEq] at hcm
        subst hcm
        obtain ⟨⟨r, hr⟩, ⟨a, haa, hsev⟩⟩ := hT2 cls m h2
        exact ⟨⟨r, hr.trans (by rw [hl1])⟩, ⟨a, haa.trans (by rw [ha1]), hsev⟩⟩
      · intro m hcm
        simp only [Except.error.injEq] at hcm
        subst hcm
        obtain ⟨hr, haa⟩ := hP2 m h2
        exact ⟨hr.trans hl1, haa.trans ha1⟩
    · obtain ⟨hl2, ha2⟩ := hO2 v2 h2
      obtain ⟨hT3, hP3, hO3⟩ := call_service_emits agent_retry_manager "TTS" ttsB ttsSvc now
        (call_service agent_retry_manager "LLM" llmB llmSvc now
          (call_service agent_retry_manager "STT" sttB sttSvc now logs0 alerts0).logs
          (call_service agent_retry_manager "STT" sttB sttSvc now logs0 alerts0).alerts).logs
        (call_service agent_retry_manager "LLM" llmB llmSvc now
          (call_service agent_retry_manager "STT" sttB sttSvc now logs0 alerts0).logs
          (call_service agent_retry_manager "STT" sttB sttSvc now logs0 alerts0).alerts).alerts
      simp only [h2]
      rcases h3 : (call_service agent_retry_manager "TTS" ttsB ttsSvc now
          (call_service agent_retry_manager "LLM" llmB llmSvc now
            (call_service agent_retry_manager "STT" sttB sttSvc now logs0 alerts0).logs
            (call_service agent_retry_manager "STT" sttB sttSvc now logs0 alerts0).alerts).logs
          (call_service agent_retry_manager "LLM" llmB llmSvc now
            (call_service agent_retry_manager "STT" sttB sttSvc now logs0 alerts0).logs
            (call_service agent_retry_manager "STT" sttB sttSvc now logs0 alerts0).alerts).alerts).result
        with e3 | v3
      · simp only [h3]
        constructor
        · intro cls m hcm
          simp only [Except.error.injEq] at hcm
          subst hcm
          obtain ⟨⟨r, hr⟩, ⟨a, haa, hsev⟩⟩ := hT3 cls m h3
          exact ⟨⟨r, hr.trans (by rw [hl2, hl1])⟩,
            ⟨a, haa.trans (by rw [ha2, ha1]), hsev⟩⟩
        · intro m hcm
          simp only [Except.error.injEq] at hcm
          subst hcm
          obtain ⟨hr, haa⟩ := hP3 m h3
          exact ⟨hr.trans (hl2.trans hl1), haa.trans (ha2.trans ha1)⟩
      · simp only [h3]
        constructor
        · intro cls m hcm
          simp at hcm
        · intro m hcm
          simp at hcm

/-- C7 amended witness: a stage-1 QuotaExceeded (Permanent) failure
yields one log and one HIGH alert; a breaker-open rejection yields no
emissions. -/
theorem claim_C7_amended_witness :
    ((∃ r, (process_call 0
        (fun _ => Except.error (PyError.classified ErrorClass.quotaExceededError "q"))
        (fun _ => Except.ok "r") (fun _ => Except.ok "a")
        (CircuitBreaker.init 3 60 "STT") (CircuitBreaker.init 3 60 "LLM")
        (CircuitBreaker.init 3 60 "TTS") [] []).logs = [] ++ [r]) ∧
      (∃ a, (process_call 0
        (fun _ => Except.error (PyError.classified ErrorClass.quotaExceededError "q"))
        (fun _ => Except.ok "r") (fun _ => Except.ok "a")
        (CircuitBreaker.init 3 60 "STT") (CircuitBreaker.init 3 60 "LLM")
        (CircuitBreaker.init 3 60 "TTS") [] []).alerts = [] ++ [a] ∧
        a.severity
          = if (ErrorClass.quotaExceededError).is_transient then "MEDIUM" else "HIGH")) ∧
    ((process_call 10 (fun _ => Except.ok "t") (fun _ => Except.ok "r")
        (fun _ => Except.ok "a")
        ⟨3, 60, "STT", CircuitState.OPEN, 3, some 0, 0⟩
        (CircuitBreaker.init 3 60 "LLM") (CircuitBreaker.init 3 60 "TTS") [] []).logs = [] ∧
      (process_call 10 (fun _ => Except.ok "t") (fun _ => Except.ok "r")
        (fun _ => Except.ok "a")
        ⟨3, 60, "STT", CircuitState.OPEN, 3, some 0, 0⟩
        (CircuitBreaker.init 3 60 "LLM") (CircuitBreaker.init 3 60 "TTS") [] []).alerts = []) :=
  ⟨(claim_C7_amended 0
      (fun _ => Except.error (PyError.classified ErrorClass.quotaExceededError "q"))
      (fun _ => Except.ok "r") (fun _ => Except.ok "a")
      (CircuitBreaker.init 3 60 "STT") (CircuitBreaker.init 3 60 "LLM")
      (CircuitBreaker.init 3 60 "TTS") [] []).1 ErrorClass.quotaExceededError "q" rfl,
   (claim_C7_amended 10 (fun _ => Except.ok "t") (fun _ => Except.ok "r")
      (fun _ => Except.ok "a")
      ⟨3, 60, "STT", CircuitState.OPEN, 3, some 0, 0⟩
      (CircuitBreaker.init 3 60 "LLM") (CircuitBreaker.init 3 60 "TTS") [] []).2
      (" [Circuit breaker] OPEN for " ++ "STT" ++ " - failing fast") rfl⟩

/-- C8 counterexample: two pipeline invocations that abort at different
stages with different failure kinds (a Permanent authentication failure
at STT versus a Transient service-unavailable failure at LLM) return the
identical value None: the returned value is not an aborted-stage marker
and carries neither the failure kind nor the stage name. -/
theorem claim_C8_counterexample :
    (process_call 0
      (fun _ => Except.error (PyError.classified ErrorClass.authenticationError "a1"))
      (fun _ => Except.ok "r") (fun _ => Except.ok "s")
      (CircuitBreaker.init 3 60 "STT") (CircuitBreaker.init 3 60 "LLM")
      (CircuitBreaker.init 3 60 "TTS") [] []).aborted_stage = some "STT" ∧
    (process_call 0 (fun _ => Except.ok "t")
      (fun _ => Except.error (PyError.classified ErrorClass.serviceUnavailableError "b1"))
      (fun _ => Except.ok "s")
      (CircuitBreaker.init 3 60 "STT") (CircuitBreaker.init 3 60 "LLM")
      (CircuitBreaker.init 3 60 "TTS") [] []).aborted_stage = some "LLM" ∧
    (process_call 0
      (fun _ => Except.error (PyError.classified ErrorClass.authenticationError "a1"))
      (fun _ => Except.ok "r") (fun _ => Except.ok "s")
      (CircuitBreaker.init 3 60 "STT") (CircuitBreaker.init 3 60 "LLM")
      (CircuitBreaker.init 3 60 "TTS") [] []).py_return
      = (process_call 0 (fun _ => Except.ok "t")
        (fun _ => Except.error (PyError.classified ErrorClass.serviceUnavailableError "b1"))
        (fun _ => Except.ok "s")
        (CircuitBreaker.init 3 60 "STT") (CircuitBreaker.init 3 60 "LLM")
        (CircuitBreaker.init 3 60 "TTS") [] []).py_return ∧
    (process_call 0
      (fun _ => Except.error (PyError.classified ErrorClass.authenticationError "a1"))
      (fun _ => Except.ok "r") (fun _ => Except.ok "s")
      (CircuitBreaker.init 3 60 "STT") (CircuitBreaker.init 3 60 "LLM")
      (CircuitBreaker.init 3 60 "TTS") [] []).py_return = none :=
  ⟨rfl, rfl, rfl, rfl⟩

/-- C8 amended: a terminal failure at any stage means no later stage is
ever invoked and the pipeline returns Python None, carrying no failure
information; on success it returns the final (TTS) stage payload. -/
theorem claim_C8_amended (now : Nat) (sttSvc llmSvc ttsSvc : Nat → Except PyError String)
    (sttB llmB ttsB : CircuitBreaker)
    (logs0 : List LogRecord) (alerts0 : List AlertRecord) :
    ((process_call now sttSvc llmSvc ttsSvc sttB llmB ttsB logs0 alerts0).aborted_stage
        = some "STT" →
      (process_call now sttSvc llmSvc ttsSvc sttB llmB ttsB logs0 alerts0).llmInv = 0 ∧
      (process_call now sttSvc llmSvc ttsSvc sttB llmB ttsB logs0 alerts0).ttsInv = 0 ∧
      (∃ e, (process_call now sttSvc llmSvc ttsSvc sttB llmB ttsB logs0 alerts0).result
        = Except.error e) ∧
      (process_call now sttSvc llmSvc ttsSvc sttB llmB ttsB logs0 alerts0).py_return = none) ∧
    ((process_call now sttSvc llmSvc ttsSvc sttB llmB ttsB logs0 alerts0).aborted_stage
        = some "LLM" →
      (process_call now sttSvc llmSvc ttsSvc sttB llmB ttsB logs0 alerts0).ttsInv = 0 ∧
      (∃ e, (process_call now sttSvc llmSvc ttsSvc sttB llmB ttsB logs0 alerts0).result
        = Except.error e) ∧
      (process_call now sttSvc llmSvc ttsSvc sttB llmB ttsB logs0 alerts0).py_return = none) ∧
    ((process_call now sttSvc llmSvc ttsSvc sttB llmB ttsB logs0 alerts0).aborted_stage
        = some "TTS" →
      (∃ e, (process_call now sttSvc llmSvc ttsSvc sttB llmB ttsB logs0 alerts0).result
        = Except.error e) ∧
      (process_call now sttSvc llmSvc ttsSvc sttB llmB ttsB logs0 alerts0).py_return = none) ∧
    ((process_call now sttSvc llmSvc ttsSvc sttB llmB ttsB logs0 alerts0).aborted_stage
        = none →
      ∃ v, (process_call now sttSvc llmSvc ttsSvc sttB llmB ttsB logs0 alerts0).result
          = Except.ok v ∧
        (process_call now sttSvc llmSvc ttsSvc sttB llmB ttsB logs0 alerts0).py_return = v) := by
  unfold process_call
  rcases h1 : (call_service agent_retry_manager "STT" sttB sttSvc now logs0 alerts0).result
    with e1 | v1
  · simp [h1, PipelineOut.py_return]
  · simp only [h1]
    rcases h2 : (call_service agent_retry_manager "LLM" llmB llmSvc now
        (call_service agent_retry_manager "STT" sttB sttSvc now logs0 alerts0).logs
        (call_service agent_retry_manager "STT" sttB sttSvc now logs0 alerts0).alerts).result
      with e2 | v2
    · simp [h2, PipelineOut.py_return]
    · simp only [h2]
      rcases h3 : (call_service agent_retry_manager "TTS" ttsB ttsSvc now
          (call_service agent_retry_manager "LLM" llmB llmSvc now
            (call_service agent_retry_manager "STT" sttB sttSvc now logs0 alerts0).logs
            (call_service agent_retry_manager "STT" sttB sttSvc now logs0 alerts0).alerts).logs
          (call_service agent_retry_manager "LLM" llmB llmSvc now
            (call_service agent_retry_manager "STT" sttB sttSvc now logs0 alerts0).logs
            (call_service agent_retry_manager "STT" sttB sttSvc now logs0 alerts0).alerts).alerts).result
        with e3 | v3
      · simp [h3, PipelineOut.py_return]
      · simp [h3, PipelineOut.py_return]

/-- C8 amended witness: instantiations at a stage-1 failure, a stage-2
failure, a stage-3 failure, and an all-success run. -/
theorem claim_C8_amended_witness :
    ((process_call 0
        (fun _ => Except.error (PyError.classified ErrorClass.authenticationError "a1"))
        (fun _ => Except.ok "r") (fun _ => Except.ok "s")
        (CircuitBreaker.init 3 60 "STT") (CircuitBreaker.init 3 60 "LLM")
        (CircuitBreaker.init 3 60 "TTS") [] []).llmInv = 0 ∧
      (process_call 0
        (fun _ => Except.error (PyError.classified ErrorClass.authenticationError "a1"))
        (fun _ => Except.ok "r") (fun _ => Except.ok "s")
        (CircuitBreaker.init 3 60 "STT") (CircuitBreaker.init 3 60 "LLM")
        (CircuitBreaker.init 3 60 "TTS") [] []).ttsInv = 0 ∧
      (∃ e, (process_call 0
        (fun _ => Except.error (PyError.classified ErrorClass.authenticationError "a1"))
        (fun _ => Except.ok "r") (fun _ => Except.ok "s")
        (CircuitBreaker.init 3 60 "STT") (CircuitBreaker.init 3 60 "LLM")
        (CircuitBreaker.init 3 60 "TTS") [] []).result = Except.error e) ∧
      (process_call 0
        (fun _ => Except.error (PyError.classified ErrorClass.authenticationError "a1"))
        (fun _ => Except.ok "r") (fun _ => Except.ok "s")
        (CircuitBreaker.init 3 60 "STT") (CircuitBreaker.init 3 60 "LLM")
        (CircuitBreaker.init 3 60 "TTS") [] []).py_return = none) ∧
    ((process_call 0 (fun _ => Except.ok "t")
        (fun _ => Except.error (PyError.classified ErrorClass.quotaExceededError "b"))
        (fun _ => Except.ok "s")
        (CircuitBreaker.init 3 60 "STT") (CircuitBreaker.init 3 60 "LLM")
        (CircuitBreaker.init 3 60 "TTS") [] []).ttsInv = 0 ∧
      (∃ e, (process_call 0 (fun _ => Except.ok "t")
        (fun _ => Except.error (PyError.classified ErrorClass.quotaExceededError "b"))
        (fun _ => Except.ok "s")
        (CircuitBreaker.init 3 60 "STT") (CircuitBreaker.init 3 60 "LLM")
        (CircuitBreaker.init 3 60 "TTS") [] []).result = Except.error e) ∧
      (process_call 0 (fun _ => Except.ok "t")
        (fun _ => Except.error (PyError.classified ErrorClass.quotaExceededError "b"))
        (fun _ => Except.ok "s")
        (CircuitBreaker.init 3 60 "STT") (CircuitBreaker.init 3 60 "LLM")
        (CircuitBreaker.init 3 60 "TTS") [] []).py_return = none) ∧
    ((∃ e, (process_call 0 (fun _ => Except.ok "t") (fun _ => Except.ok "r")
        (fun _ => Except.error (PyError.classified ErrorClass.invalidPayloadError "c"))
        (CircuitBreaker.init 3 60 "STT") (CircuitBreaker.init 3 60 "LLM")
        (CircuitBreaker.init 3 60 "TTS") [] []).result = Except.error e) ∧
      (process_call 0 (fun _ => Except.ok "t") (fun _ => Except.ok "r")
        (fun _ => Except.error (PyError.classified ErrorClass.invalidPayloadError "c"))
        (CircuitBreaker.init 3 60 "STT") (CircuitBreaker.init 3 60 "LLM")
        (CircuitBreaker.init 3 60 "TTS") [] []).py_return = none) ∧
    (∃ v, (process_call 0 (fun _ => Except.ok "t") (fun _ => Except.ok "r")
        (fun _ => Except.ok "s")
        (CircuitBreaker.init 3 60 "STT") (CircuitBreaker.init 3 60 "LLM")
        (CircuitBreaker.init 3 60 "TTS") [] []).result = Except.ok v ∧
      (process_call 0 (fun _ => Except.ok "t") (fun _ => Except.ok "r")
        (fun _ => Except.ok "s")
        (CircuitBreaker.init 3 60 "STT") (CircuitBreaker.init 3 60 "LLM")
        (CircuitBreaker.init 3 60 "TTS") [] []).py_return = v) :=
  ⟨(claim_C8_amended 0
      (fun _ => Except.error (PyError.classified ErrorClass.authenticationError "a1"))
      (fun _ => Except.ok "r") (fun _ => Except.ok "s")
      (CircuitBreaker.init 3 60 "STT") (CircuitBreaker.init 3 60 "LLM")
      (CircuitBreaker.init 3 60 "TTS") [] []).1 rfl,
   (claim_C8_amended 0 (fun _ => Except.ok "t")
      (fun _ => Except.error (PyError.classified ErrorClass.quotaExceededError "b"))
      (fun _ => Except.ok "s")
      (CircuitBreaker.init 3 60 "STT") (CircuitBreaker.init 3 60 "LLM")
      (CircuitBreaker.init 3 60 "TTS") [] []).2.1 rfl,
   (claim_C8_amended 0 (fun _ => Except.ok "t") (fun _ => Except.ok "r")
      (fun _ => Except.error (PyError.classified ErrorClass.invalidPayloadError "c"))
      (CircuitBreaker.init 3 60 "STT") (CircuitBreaker.init 3 60 "LLM")
      (CircuitBreaker.init 3 60 "TTS") [] []).2.2.1 rfl,
   (claim_C8_amended 0 (fun _ => Except.ok "t") (fun _ => Except.ok "r")
      (fun _ => Except.ok "s")
      (CircuitBreaker.init 3 60 "STT") (CircuitBreaker.init 3 60 "LLM")
      (CircuitBreaker.init 3 60 "TTS") [] []).2.2.2 rfl⟩

/-- C10: the breaker-open rejection is a plain exception matched by
neither the TransientError nor the PermanentError handler; a stage whose
breaker is OPEN within the reset timeout therefore propagates the
rejection from the first retry attempt with no further attempt, no
sleep, no invocation of the wrapped service, and no log or alert
emission. -/
theorem claim_C10 (rm : RetryManager) (name : String) (b : CircuitBreaker)
    (svc : Nat → Except PyError String) (now t : Nat)
    (ls : List LogRecord) (al : List AlertRecord)
    (hmax : 1 ≤ rm.max_attempts) (hs : b.state = CircuitState.OPEN)
    (ht : b.last_failure_time = some t)
    (hlt : (now : Int) - (t : Int) < (b.timeout : Int)) :
    (PyError.plainExc
      (" [Circuit breaker] OPEN for " ++ b.service_name ++ " - failing fast")).matches_transient
      = false ∧
    (PyError.plainExc
      (" [Circuit breaker] OPEN for " ++ b.service_name ++ " - failing fast")).matches_permanent
      = false ∧
    (call_service rm name b svc now ls al).result = Except.error (PyError.plainExc
      (" [Circuit breaker] OPEN for " ++ b.service_name ++ " - failing fast")) ∧
    (call_service rm name b svc now ls al).calls = 1 ∧
    (call_service rm name b svc now ls al).invocations = 0 ∧
    (call_service rm name b svc now ls al).delays = [] ∧
    (call_service rm name b svc now ls al).logs = ls ∧
    (call_service rm name b svc now ls al).alerts = al := by
  obtain ⟨k, hk⟩ : ∃ k, rm.max_attempts = k + 1 := ⟨rm.max_attempts - 1, by omega⟩
  have hpos : 0 < rm.max_attempts := hmax
  have hstep : stageStep (α := String) now svc (b, 0)
      = (Except.error (PyError.plainExc
          (" [Circuit breaker] OPEN for " ++ b.service_name ++ " - failing fast")), (b, 0)) := by
    unfold stageStep
    rw [call_open_rejects b now t (svc 0) hs ht hlt]
  have hrun : rm.execute_with_retry (stageStep (α := String) now svc) (b, 0)
      = ⟨Except.error (PyError.plainExc
          (" [Circuit breaker] OPEN for " ++ b.service_name ++ " - failing fast")),
         (b, 0), 1, []⟩ := by
    unfold RetryManager.execute_with_retry
    rw [hk]
    simp [RetryManager.loop, hstep, hpos, PyError.matches_transient, PyError.matches_permanent]
  unfold call_service
  rw [hrun]
  exact ⟨rfl, rfl, rfl, rfl, rfl, rfl, rfl, rfl⟩

/-- C10 witness: a concrete OPEN breaker 10 time units into a 60-unit
reset timeout, under the concrete agent policy. -/
theorem claim_C10_witness :
    (PyError.plainExc
      (" [Circuit breaker] OPEN for "
        ++ (⟨3, 60, "S", CircuitState.OPEN, 3, some 0, 0⟩ : CircuitBreaker).service_name
        ++ " - failing fast")).matches_transient = false ∧
    (PyError.plainExc
      (" [Circuit breaker] OPEN for "
        ++ (⟨3, 60, "S", CircuitState.OPEN, 3, some 0, 0⟩ : CircuitBreaker).service_name
        ++ " - failing fast")).matches_permanent = false ∧
    (call_service ⟨5, 2, 3⟩ "S" ⟨3, 60, "S", CircuitState.OPEN, 3, some 0, 0⟩
        (fun _ => Except.ok "v") 10 [] []).result
      = Except.error (PyError.plainExc
        (" [Circuit breaker] OPEN for "
          ++ (⟨3, 60, "S", CircuitState.OPEN, 3, some 0, 0⟩ : CircuitBreaker).service_name
          ++ " - failing fast")) ∧
    (call_service ⟨5, 2, 3⟩ "S" ⟨3, 60, "S", CircuitState.OPEN, 3, some 0, 0⟩
        (fun _ => Except.ok "v") 10 [] []).calls = 1 ∧
    (call_service ⟨5, 2, 3⟩ "S" ⟨3, 60, "S", CircuitState.OPEN, 3, some 0, 0⟩
        (fun _ => Except.ok "v") 10 [] []).invocations = 0 ∧
    (call_service ⟨5, 2, 3⟩ "S" ⟨3, 60, "S", CircuitState.OPEN, 3, some 0, 0⟩
        (fun _ => Except.ok "v") 10 [] []).delays = [] ∧
    (call_service ⟨5, 2, 3⟩ "S" ⟨3, 60, "S", CircuitState.OPEN, 3, some 0, 0⟩
        (fun _ => Except.ok "v") 10 [] []).logs = [] ∧
    (call_service ⟨5, 2, 3⟩ "S" ⟨3, 60, "S", CircuitState.OPEN, 3, some 0, 0⟩
        (fun _ => Except.ok "v") 10 [] []).alerts = [] :=
  claim_C10 ⟨5, 2, 3⟩ "S" ⟨3, 60, "S", CircuitState.OPEN, 3, some 0, 0⟩
    (fun _ => Except.ok "v") 10 0 [] [] (by decide) rfl rfl (by decide)

end CallRecovery

